import Mathlib

/-!
Verification of the microschc UDP module (`microschc/protocol/udp.py`) and of
the decompressor reference fixture (`tests/decompressor/test_decompressor.py`).

The bit-precise buffer abstraction, the rule/field data model and the
decompressor are external collaborators of `udp.py`; they are modelled from
the specification (sections 3, 4.1, 4.4 and 6).  The functions of `udp.py`
(`UDPParser.parse`, `_compute_length`, `_compute_checksum` and the compute
function registry) are translated directly from the source.
-/

/-- Modelled from the spec: `BitBuffer` (spec section 3 and 4.1), absent from
`src/`.  An ordered sequence of bits, MSB-first.  The bits are the low
`length` bits of `val`, read most-significant first; a buffer is well formed
when `val < 2 ^ length`, and every operation below produces a well-formed
buffer from well-formed inputs.  Equality compares bits and bit length only,
matching the spec's equality contract (padding side is a representation
detail of the Python class and does not affect the bit content). -/
structure Buffer where
  val : Nat
  length : Nat
deriving DecidableEq

/-- Modelled from the spec: construction from bytes with `Padding.LEFT`
(the significant bits are the low `bitLen` bits of the content bytes). -/
def Buffer.ofBytesLeft (content bitLen : Nat) : Buffer :=
  Buffer.mk (content % 2 ^ bitLen) bitLen

/-- Modelled from the spec: construction from bytes with `Padding.RIGHT`
(the significant bits are the high `bitLen` bits of the `numBytes` content
bytes; the low padding bits are dropped). -/
def Buffer.ofBytesRight (content numBytes bitLen : Nat) : Buffer :=
  Buffer.mk (content / 2 ^ (8 * numBytes - bitLen)) bitLen

/-- Modelled from the spec: `slice(a, b)`, the sub-buffer over the bit range
`[a, b)`, MSB-first (spec section 4.1).  Callers in scope only slice within
bounds (`a ≤ b ≤ length`). -/
def Buffer.slice (b : Buffer) (i j : Nat) : Buffer :=
  Buffer.mk (b.val / 2 ^ (b.length - j) % 2 ^ (j - i)) (j - i)

/-- Modelled from the spec: the Python slice `buffer[i:]` with a possibly
negative start index, as used by the compute functions of `udp.py`.  A
non-negative start is clamped to the length; a negative start counts from
the end of the buffer, clamped to 0 (CPython slice semantics). -/
def Buffer.pySliceFrom (b : Buffer) (i : Int) : Buffer :=
  let start : Nat := if 0 ≤ i then min i.toNat b.length else b.length - (-i).toNat
  Buffer.mk (b.val % 2 ^ (b.length - start)) (b.length - start)

/-- Modelled from the spec: `concat` (spec section 4.1): the bits of the
first buffer followed by the bits of the second, length the sum. -/
instance : Append Buffer :=
  ⟨fun a b => Buffer.mk (a.val * 2 ^ b.length + b.val) (a.length + b.length)⟩

/-- Modelled from the spec: worker for `chunks(16, pad)` (spec section 4.1).
Splits the low `len` bits of `val` into consecutive 16-bit big-endian chunk
values; when `pad` is true a final short chunk is zero-extended on the right,
otherwise it is not produced (the unpadded form is only ever applied to
buffers whose length is a multiple of 16, where the spec's bounds error is
unreachable).  The fuel argument only drives the recursion and is always
instantiated with `len`. -/
def chunks16Aux : Nat → Nat → Nat → Bool → List Nat
  | 0, _, _, _ => []
  | fuel + 1, val, len, pad =>
    if 16 ≤ len then
      (val / 2 ^ (len - 16)) % 2 ^ 16 :: chunks16Aux fuel (val % 2 ^ (len - 16)) (len - 16) pad
    else if len = 0 then []
    else if pad then [(val % 2 ^ len) * 2 ^ (16 - len)] else []

/-- Modelled from the spec: `chunks(16, pad)` returning the unsigned big-endian
value of each 16-bit chunk, as consumed by the checksum loops of `udp.py`. -/
def Buffer.chunks16 (b : Buffer) (pad : Bool) : List Nat :=
  chunks16Aux b.length b.val b.length pad

/-- Python list indexing `l[i]`: a negative index counts from the end of the
list; an index out of range raises `IndexError`, modelled as `none`. -/
def pyGet {α : Type} (l : List α) (i : Int) : Option α :=
  if 0 ≤ i then l.get? i.toNat
  else if 0 ≤ i + l.length then l.get? (i + l.length).toNat
  else none

/-- Python slice `l[start:0:-1]`: the elements at indices `start, start-1, ..., 1`
(index 0 excluded), with CPython resolution of an out-of-range or negative
start for a negative step. -/
def pySliceRevTo1 {α : Type} (l : List α) (start : Int) : List α :=
  let n : Int := l.length
  let s : Int := if n ≤ start then n - 1
    else if 0 ≤ start then start
    else if 0 ≤ start + n then start + n
    else -1
  if s ≤ 0 then [] else ((l.take (s.toNat + 1)).drop 1).reverse

/-- Membership test of `needle` as a leading run of `hay` (character lists). -/
def strStartsWithAux : List Char → List Char → Bool
  | [], _ => true
  | _ :: _, [] => false
  | a :: as, b :: bs => a == b && strStartsWithAux as bs

/-- Worker for the Python substring test. -/
def strHasSubAux : List Char → List Char → Bool
  | n, [] => n.isEmpty
  | n, c :: cs => strStartsWithAux n (c :: cs) || strHasSubAux n cs

/-- Python's `needle in hay` substring containment on strings, used by
`_compute_checksum` for its stringly-typed protocol dispatch. -/
def strContains (hay needle : String) : Bool :=
  strHasSubAux needle.data hay.data

/-- Source constant `UDP_HEADER_ID` of `udp.py`. -/
def UDP_HEADER_ID : String := "UDP"

/-- Source enum `UDPFields` member values of `udp.py`. -/
def UDPFields.SOURCE_PORT : String := "UDP:Source Port"

/-- Source enum member `UDPFields.DESTINATION_PORT`. -/
def UDPFields.DESTINATION_PORT : String := "UDP:Destination Port"

/-- Source enum member `UDPFields.LENGTH`. -/
def UDPFields.LENGTH : String := "UDP:Length"

/-- Source enum member `UDPFields.CHECKSUM`. -/
def UDPFields.CHECKSUM : String := "UDP:Checksum"

/-- Modelled from the spec: `IPv6_HEADER_ID` imported by `udp.py` from
`microschc/protocol/ipv6.py`, which is absent from `src/`. -/
def IPv6_HEADER_ID : String := "IPv6"

/-- Modelled from the spec: `IPV4_HEADER_ID` imported by `udp.py` from
`microschc/protocol/ipv4.py`, which is absent from `src/`. -/
def IPV4_HEADER_ID : String := "IPv4"

/-- Modelled from the spec: `IPv6Fields.SRC_ADDRESS`, the field id searched by
the IPv6 branch of `_compute_checksum`. -/
def IPv6Fields.SRC_ADDRESS : String := "IPv6:Source Address"

/-- Modelled from the spec: `IPv6Fields.DST_ADDRESS`. -/
def IPv6Fields.DST_ADDRESS : String := "IPv6:Destination Address"

/-- Modelled from the spec: `IPv6Fields.VERSION`. -/
def IPv6Fields.VERSION : String := "IPv6:Version"

/-- Modelled from the spec: `IPv6Fields.TRAFFIC_CLASS`. -/
def IPv6Fields.TRAFFIC_CLASS : String := "IPv6:Traffic Class"

/-- Modelled from the spec: `IPv6Fields.FLOW_LABEL`. -/
def IPv6Fields.FLOW_LABEL : String := "IPv6:Flow Label"

/-- Modelled from the spec: `IPv6Fields.PAYLOAD_LENGTH`. -/
def IPv6Fields.PAYLOAD_LENGTH : String := "IPv6:Payload Length"

/-- Modelled from the spec: `IPv6Fields.NEXT_HEADER`. -/
def IPv6Fields.NEXT_HEADER : String := "IPv6:Next Header"

/-- Modelled from the spec: `IPv6Fields.HOP_LIMIT`. -/
def IPv6Fields.HOP_LIMIT : String := "IPv6:Hop Limit"

/-- Modelled from the spec: `IPv4Fields.SRC_ADDRESS`, the field id searched by
the IPv4 branch of `_compute_checksum`. -/
def IPv4Fields.SRC_ADDRESS : String := "IPv4:Source Address"

/-- Modelled from the spec: `FieldDescriptor` of `microschc/rfc8724.py`
(spec section 3), absent from `src/`. -/
structure FieldDescriptor where
  id : String
  position : Nat
  value : Buffer
deriving DecidableEq

/-- Modelled from the spec: `HeaderDescriptor` of `microschc/rfc8724.py`
(spec section 3). -/
structure HeaderDescriptor where
  id : String
  length : Nat
  fields : List FieldDescriptor
deriving DecidableEq

/-- Modelled from the spec: `ParserError` raised by header parsers (spec
section 7); it carries the offending buffer and a diagnostic message. -/
structure ParserError where
  buffer : Buffer
  message : String
deriving DecidableEq

/-- Translation of `UDPParser.parse` (udp.py, lines 33-73): reject a buffer
shorter than 64 bits, otherwise extract the four fixed 16-bit fields. -/
def UDPParser.parse (buffer : Buffer) : Except ParserError HeaderDescriptor :=
  if buffer.length < 64 then
    Except.error (ParserError.mk buffer "length too short")
  else
    Except.ok (HeaderDescriptor.mk UDP_HEADER_ID 64
      [FieldDescriptor.mk UDPFields.SOURCE_PORT 0 (buffer.slice 0 16),
       FieldDescriptor.mk UDPFields.DESTINATION_PORT 0 (buffer.slice 16 32),
       FieldDescriptor.mk UDPFields.LENGTH 0 (buffer.slice 32 48),
       FieldDescriptor.mk UDPFields.CHECKSUM 0 (buffer.slice 48 64)])

/-- Translation of the octet-count expression shared by `_compute_length`
(line 80) and `_compute_checksum` (line 152) of `udp.py`:
`b.length // 8 if b.length % 8 == 0 else b.length // 8 + 1`. -/
def udpLengthOctets (b : Buffer) : Nat :=
  if b.length % 8 = 0 then b.length / 8 else b.length / 8 + 1

/-- Translation of `_compute_length` (udp.py, lines 76-82).  The two trailing
arguments are accepted and ignored exactly as in the source.  The 2-byte
conversion `length.to_bytes(2, 'big')` raises `OverflowError` when the octet
count does not fit 16 bits; this failure is modelled as `none`. -/
def _compute_length (packet : Buffer) (field_cursor : Nat)
    (_fields : List (String × Buffer)) (_pos : Nat) : Option Buffer :=
  let udp_header_and_payload := packet.pySliceFrom ((field_cursor : Int) - 32)
  let length := udpLengthOctets udp_header_and_payload
  if length < 65536 then some (Buffer.mk length 16) else none

/-- Translation of the address selection of `_compute_checksum` (udp.py,
lines 154, 180-183 and 199-203): enumerate `fields_ids[p:0:-1]`, find the
first offset whose id equals the searched source-address id (Python's `next`
raising `StopIteration` on exhaustion is modelled as `none`), then read the
source address at `p - offset` and the destination address right after it. -/
def selectAddresses (fields_ids : List String) (fields_values : List Buffer)
    (p : Int) (srcId : String) : Option (Buffer × Buffer) :=
  match (pySliceRevTo1 fields_ids p).findIdx? (fun fid => fid == srcId) with
  | none => none
  | some offset =>
    let src_position : Int := p - offset
    match pyGet fields_values src_position, pyGet fields_values (src_position + 1) with
    | some src, some dst => some (src, dst)
    | _, _ => none

/-- Translation of the IPv6 branch of `_compute_checksum` (udp.py, lines
157-186).  `pseudo_header_length` is `Buffer(udp_total_length.to_bytes(4,
'big'), length=16)` with the default `Padding.LEFT`, so its value is the low
16 bits of the octet count; the 4-byte conversion overflows (raises) when the
octet count reaches `2 ^ 32`.  `pseudo_header_protocol_id` is the 16-bit
buffer `b'\x00\x11'`.  The pseudo-header is the concatenation
source address, destination address, protocol id, length, in that order. -/
def ipv6PseudoHeader (fields_ids : List String) (fields_values : List Buffer)
    (p : Int) (udp_total_length : Nat) : Option Buffer :=
  match selectAddresses fields_ids fields_values p IPv6Fields.SRC_ADDRESS with
  | none => none
  | some (src, dst) =>
    if udp_total_length < 4294967296 then
      some (src ++ dst ++ Buffer.mk 0x0011 16 ++ Buffer.mk (udp_total_length % 65536) 16)
    else none

/-- Translation of the IPv4 branch of `_compute_checksum` (udp.py, lines
188-206): the pseudo-header is source address, destination address, the
16-bit protocol id `b'\x00\x11'`, and the 16-bit UDP length (whose 2-byte
conversion overflows at `2 ^ 16`). -/
def ipv4PseudoHeader (fields_ids : List String) (fields_values : List Buffer)
    (p : Int) (udp_total_length : Nat) : Option Buffer :=
  match selectAddresses fields_ids fields_values p IPv4Fields.SRC_ADDRESS with
  | none => none
  | some (src, dst) =>
    if udp_total_length < 65536 then
      some (src ++ dst ++ Buffer.mk 0x0011 16 ++ Buffer.mk udp_total_length 16)
    else none

/-- Translation of the pseudo-header construction of `_compute_checksum`
(udp.py, lines 141-206): the dispatch reads the single field id at Python
index `rule_field_position - 4` and tests it for the `IPv6` then the `IPv4`
substring; when neither matches, `pseudo_header` is never assigned and the
function fails at line 211 with `NameError`, modelled as `none`. -/
def computePseudoHeader (decompressed_fields : List (String × Buffer))
    (rule_field_position : Nat) (udp_total_length : Nat) : Option Buffer :=
  match pyGet (decompressed_fields.map Prod.fst) ((rule_field_position : Int) - 4) with
  | none => none
  | some preceding_protocol_last_field =>
    if strContains preceding_protocol_last_field IPv6_HEADER_ID then
      ipv6PseudoHeader (decompressed_fields.map Prod.fst)
        (decompressed_fields.map Prod.snd) ((rule_field_position : Int) - 4)
        udp_total_length
    else if strContains preceding_protocol_last_field IPV4_HEADER_ID then
      ipv4PseudoHeader (decompressed_fields.map Prod.fst)
        (decompressed_fields.map Prod.snd) ((rule_field_position : Int) - 4)
        udp_total_length
    else none

/-- Translation of the per-chunk accumulation step of the checksum loops of
`_compute_checksum` (udp.py, lines 211-214 and 217-220): add the chunk, then
fold the carry (`s >> 16`, written `s / 65536`) back and mask to 16 bits
(`& 0xffff`, written `% 65536`; for non-negative Python ints shift and mask
are exactly division and remainder by `65536`). -/
def eacFoldStep (acc chunk : Nat) : Nat :=
  (acc + chunk + (acc + chunk) / 65536) % 65536

/-- Translation of the UDP header and payload extraction of
`_compute_checksum` (udp.py, line 151): `packet[field_cursor - 48:]`. -/
def udpHeaderAndPayload (packet : Buffer) (field_cursor : Nat) : Buffer :=
  packet.pySliceFrom ((field_cursor : Int) - 48)

/-- Translation of the summation and complement of `_compute_checksum`
(udp.py, lines 208-226): sum the 16-bit chunks of the pseudo-header, then of
the (zero-padded) UDP header and payload, fold the two partial sums together
with one more end-around carry, and complement (`~v & 0xffff` on a value
below `2 ^ 16` is exactly `65535 - v`). -/
def udpChecksumCore (pseudo_header udp_header_and_payload : Buffer) : Nat :=
  let pseudo_header_checksum := (pseudo_header.chunks16 false).foldl eacFoldStep 0
  let uhp_checksum := (udp_header_and_payload.chunks16 true).foldl eacFoldStep 0
  let s := pseudo_header_checksum + uhp_checksum
  65535 - (s + s / 65536) % 65536

/-- Translation of the RFC768 zero escape of `_compute_checksum` (udp.py,
line 229): a computed checksum of `0x0000` is transmitted as `0xffff`. -/
def rfc768Escape (v : Nat) : Nat :=
  if v = 0 then 65535 else v

/-- Translation of `_compute_checksum` (udp.py, lines 84-233), assembled from
the faithful pieces above: build the pseudo-header from the decompressed
fields context, sum, complement, apply the zero escape, and return the
16-bit checksum buffer. -/
def _compute_checksum (packet : Buffer) (field_cursor : Nat)
    (decompressed_fields : List (String × Buffer)) (rule_field_position : Nat) :
    Option Buffer :=
  match computePseudoHeader decompressed_fields rule_field_position
      (udpLengthOctets (udpHeaderAndPayload packet field_cursor)) with
  | none => none
  | some pseudo_header =>
    some (Buffer.mk
      (rfc768Escape (udpChecksumCore pseudo_header (udpHeaderAndPayload packet field_cursor)))
      16)

/-- Translation of the compute function registry `UDPComputeFunctions`
(udp.py, lines 237-240). -/
def UDPComputeFunctions (id : String) :
    Option (Buffer → Nat → List (String × Buffer) → Nat → Option Buffer) :=
  if id = UDPFields.LENGTH then some _compute_length
  else if id = UDPFields.CHECKSUM then some _compute_checksum
  else none

/-- Modelled from the spec: `DirectionIndicator` of `microschc/rfc8724.py`
(spec section 3), absent from `src/`. -/
inductive DirectionIndicator where
  | UP
  | DOWN
  | BIDIRECTIONAL
deriving DecidableEq

/-- Modelled from the spec: `MatchingOperator` of `microschc/rfc8724.py`
(spec section 3). -/
inductive MatchingOperator where
  | EQUAL
  | IGNORE
  | MSB
  | MATCH_MAPPING
deriving DecidableEq

/-- Modelled from the spec: `CompressionDecompressionAction` of
`microschc/rfc8724.py` (spec section 3). -/
inductive CompressionDecompressionAction where
  | NOT_SENT
  | VALUE_SENT
  | LSB
  | MAPPING_SENT
  | COMPUTE
deriving DecidableEq

/-- Modelled from the spec: the `target_value` of a rule field is either a
buffer or a `MatchMapping` (spec section 3); a mapping is the forward table
as a list of (value, compact index) pairs. -/
inductive TargetValue where
  | buf (b : Buffer)
  | mapping (forward : List (Buffer × Buffer))
deriving DecidableEq

/-- Modelled from the spec: `RuleFieldDescriptor` of `microschc/rfc8724.py`
(spec section 3). -/
structure RuleFieldDescriptor where
  id : String
  length : Nat
  position : Nat
  direction : DirectionIndicator
  target_value : TargetValue
  matching_operator : MatchingOperator
  compression_decompression_action : CompressionDecompressionAction
deriving DecidableEq

/-- Modelled from the spec: `RuleDescriptor` of `microschc/rfc8724.py`
(spec section 3): the rule id bit-string and the ordered field descriptors. -/
structure RuleDescriptor where
  id : Buffer
  field_descriptors : List RuleFieldDescriptor
deriving DecidableEq

/-- Modelled from the spec: the RFC 8724 size token preceding the residue of
a variable-length field (spec sections 4.4 and 6; the reference fixture in
`src/tests/decompressor/test_decompressor.py` encodes the 64-bit CoAP token
residue as `1111` followed by the 8-bit size 64, and the 8-bit option-value
residue as the 4-bit size 8).  The size, in bits, is read as 4 bits; the
value 15 extends it to the next 8 bits, and there the value 255 extends it to
the next 16 bits.  Returns the size and the advanced cursor, or `none` when
the residue is exhausted. -/
def readSizeToken (schc : Buffer) (cursor : Nat) : Option (Nat × Nat) :=
  if cursor + 4 ≤ schc.length then
    let p := (schc.slice cursor (cursor + 4)).val
    if p < 15 then some (p, cursor + 4)
    else if cursor + 12 ≤ schc.length then
      let p8 := (schc.slice (cursor + 4) (cursor + 12)).val
      if p8 < 255 then some (p8, cursor + 12)
      else if cursor + 28 ≤ schc.length then
        some ((schc.slice (cursor + 12) (cursor + 28)).val, cursor + 28)
      else none
    else none
  else none

/-- Modelled from the spec: the bit width of the compact indices of a
mapping, the width consumed from the residue by `MAPPING_SENT` (spec
section 4.4; 2 bits in the reference fixture). -/
def mappingIndexLength (m : List (Buffer × Buffer)) : Nat :=
  m.foldl (fun acc e => max acc e.2.length) 0

/-- Modelled from the spec: reverse lookup of a consumed compact index in the
mapping; a miss is fatal (spec section 4.4), modelled as `none`. -/
def mappingReverseLookup (m : List (Buffer × Buffer)) (idx : Buffer) : Option Buffer :=
  (m.find? (fun e => e.2 == idx)).map Prod.fst

/-- Modelled from the spec: reconstruction of one rule field during
decompression (spec section 4.4), branching on the
compression/decompression action.  `NOT_SENT` replays the target value;
`VALUE_SENT` consumes the field's `length` bits, or, for a variable-length
field (`length = 0`), a size token followed by that many bits; `LSB`
concatenates the target prefix with the remaining consumed bits;
`MAPPING_SENT` consumes a compact index and reverses the mapping; `COMPUTE`
invokes the registered compute function on the packet reconstructed so far,
the field's bit offset in it, the context and the field's position.
Returns the reconstructed value and the advanced cursor. -/
def decompressField (schc : Buffer) (f : RuleFieldDescriptor) (cursor : Nat)
    (out : Buffer) (ctx : List (String × Buffer)) : Option (Buffer × Nat) :=
  match f.compression_decompression_action with
  | CompressionDecompressionAction.NOT_SENT =>
    match f.target_value with
    | TargetValue.buf t => some (t, cursor)
    | TargetValue.mapping _ => none
  | CompressionDecompressionAction.VALUE_SENT =>
    if f.length = 0 then
      match readSizeToken schc cursor with
      | none => none
      | some (n, c1) =>
        if c1 + n ≤ schc.length then some (schc.slice c1 (c1 + n), c1 + n) else none
    else
      if cursor + f.length ≤ schc.length then
        some (schc.slice cursor (cursor + f.length), cursor + f.length)
      else none
  | CompressionDecompressionAction.LSB =>
    match f.target_value with
    | TargetValue.buf t =>
      let n := f.length - t.length
      if cursor + n ≤ schc.length then
        some (t ++ schc.slice cursor (cursor + n), cursor + n)
      else none
    | TargetValue.mapping _ => none
  | CompressionDecompressionAction.MAPPING_SENT =>
    match f.target_value with
    | TargetValue.mapping m =>
      let w := mappingIndexLength m
      if cursor + w ≤ schc.length then
        match mappingReverseLookup m (schc.slice cursor (cursor + w)) with
        | some v => some (v, cursor + w)
        | none => none
      else none
    | TargetValue.buf _ => none
  | CompressionDecompressionAction.COMPUTE =>
    match UDPComputeFunctions f.id with
    | none => none
    | some fn =>
      match fn out out.length ctx f.position with
      | none => none
      | some v => some (v, cursor)

/-- Modelled from the spec: the decompressor's cursor-driven walk over the
rule fields (spec section 4.4): fields whose direction is neither
`BIDIRECTIONAL` nor the packet direction are skipped; each reconstructed
value is appended to the output packet and to the context list. -/
def decompressFields (schc : Buffer) (direction : DirectionIndicator) :
    List RuleFieldDescriptor → Nat → Buffer → List (String × Buffer) →
    Option (Nat × Buffer)
  | [], cursor, out, _ => some (cursor, out)
  | f :: rest, cursor, out, ctx =>
    if f.direction = DirectionIndicator.BIDIRECTIONAL ∨ f.direction = direction then
      match decompressField schc f cursor out ctx with
      | none => none
      | some (value, cursor1) =>
        decompressFields schc direction rest cursor1 (out ++ value)
          (ctx ++ [(f.id, value)])
    else decompressFields schc direction rest cursor out ctx

/-- Modelled from the spec: `decompress(schc_packet, direction, rule)` (spec
sections 4.4 and 6), absent from `src/`.  The cursor starts after the rule's
id bits (wire format: rule id, then the per-field residues in rule order);
after the last rule field the remaining residue bits are appended verbatim as
the uncompressed trailing payload.  Any cursor overrun, mapping miss or
compute failure aborts the call with no partial output. -/
def decompress (schc_packet : Buffer) (direction : DirectionIndicator)
    (rule : RuleDescriptor) : Option Buffer :=
  match decompressFields schc_packet direction rule.field_descriptors
      rule.id.length (Buffer.mk 0 0) [] with
  | none => none
  | some (cursor, out) => some (out ++ schc_packet.pySliceFrom (cursor : Int))

/-- Modelled from the spec: `CoAPFields` member values of
`microschc/protocol/coap.py`, absent from `src/`; only their distinctness
and their protocol marker matter to the fixture. -/
def CoAPFields.VERSION : String := "CoAP:Version"

/-- Modelled from the spec: `CoAPFields.TYPE`. -/
def CoAPFields.TYPE : String := "CoAP:Type"

/-- Modelled from the spec: `CoAPFields.TOKEN_LENGTH`. -/
def CoAPFields.TOKEN_LENGTH : String := "CoAP:Token Length"

/-- Modelled from the spec: `CoAPFields.CODE`. -/
def CoAPFields.CODE : String := "CoAP:Code"

/-- Modelled from the spec: `CoAPFields.MESSAGE_ID`. -/
def CoAPFields.MESSAGE_ID : String := "CoAP:Message ID"

/-- Modelled from the spec: `CoAPFields.TOKEN`. -/
def CoAPFields.TOKEN : String := "CoAP:Token"

/-- Modelled from the spec: `CoAPFields.OPTION_DELTA`. -/
def CoAPFields.OPTION_DELTA : String := "CoAP:Option Delta"

/-- Modelled from the spec: `CoAPFields.OPTION_LENGTH`. -/
def CoAPFields.OPTION_LENGTH : String := "CoAP:Option Length"

/-- Modelled from the spec: `CoAPFields.OPTION_VALUE`. -/
def CoAPFields.OPTION_VALUE : String := "CoAP:Option Value"

/-- Modelled from the spec: `CoAPFields.PAYLOAD_MARKER`. -/
def CoAPFields.PAYLOAD_MARKER : String := "CoAP:Payload Marker"

/-- The 144-byte IPv6/UDP/CoAP packet `valid_stack_packet` of the reference
fixture (test_decompressor.py, lines 16-27), as a 1152-bit buffer. -/
def fixtureStackPacket : Buffer :=
  Buffer.ofBytesRight
    0x6000ef2d0068114020010db8000a0000000000000000000220010db8000a00000000000000000020d100163300685c21684522f6b8300efee6629122c16eff5b7b22626e223a222f362f222c226e223a22302f30222c2276223a35342e307d2c7b226e223a22302f31222c2276223a34382e307d2c7b226e223a22302f35222c2276223a313636363236333333397d5d
    144 1152

/-- The literal 828-bit SCHC packet `schc_packet` of the reference fixture
(test_decompressor.py, lines 90-99): 104 content bytes with right padding,
of which the last 4 bits are padding. -/
def fixtureSchcPacket : Buffer :=
  Buffer.ofBytesRight
    0xc01a00800685c2184522f6f40b8300efee6629122186e5b7b22626e223a222f362f222c226e223a22302f30222c2276223a35342e307d2c7b226e223a22302f31222c2276223a34382e307d2c7b226e223a22302f35222c2276223a313636363236333333397d5d0
    104 828

/-- The rule `rule_descriptor_1` of the reference fixture
(test_decompressor.py, lines 29-88): rule id `0b11` on 2 bits and the 22
IPv6 + UDP + CoAP rule field descriptors with their matching operators and
compression/decompression actions. -/
def fixtureRule : RuleDescriptor :=
  RuleDescriptor.mk (Buffer.ofBytesLeft 0x03 2)
    [RuleFieldDescriptor.mk IPv6Fields.VERSION 4 0 DirectionIndicator.BIDIRECTIONAL
       (TargetValue.buf (Buffer.ofBytesLeft 0x06 4))
       MatchingOperator.EQUAL CompressionDecompressionAction.NOT_SENT,
     RuleFieldDescriptor.mk IPv6Fields.TRAFFIC_CLASS 8 0 DirectionIndicator.BIDIRECTIONAL
       (TargetValue.buf (Buffer.ofBytesLeft 0x00 8))
       MatchingOperator.EQUAL CompressionDecompressionAction.NOT_SENT,
     RuleFieldDescriptor.mk IPv6Fields.FLOW_LABEL 20 0 DirectionIndicator.UP
       (TargetValue.buf (Buffer.ofBytesLeft 0x00ef2d 20))
       MatchingOperator.EQUAL CompressionDecompressionAction.NOT_SENT,
     RuleFieldDescriptor.mk IPv6Fields.PAYLOAD_LENGTH 16 0 DirectionIndicator.BIDIRECTIONAL
       (TargetValue.buf (Buffer.ofBytesLeft 0x00 16))
       MatchingOperator.IGNORE CompressionDecompressionAction.VALUE_SENT,
     RuleFieldDescriptor.mk IPv6Fields.NEXT_HEADER 8 0 DirectionIndicator.BIDIRECTIONAL
       (TargetValue.buf (Buffer.ofBytesLeft 0x11 8))
       MatchingOperator.EQUAL CompressionDecompressionAction.NOT_SENT,
     RuleFieldDescriptor.mk IPv6Fields.HOP_LIMIT 8 0 DirectionIndicator.BIDIRECTIONAL
       (TargetValue.buf (Buffer.ofBytesLeft 0x40 8))
       MatchingOperator.EQUAL CompressionDecompressionAction.NOT_SENT,
     RuleFieldDescriptor.mk IPv6Fields.SRC_ADDRESS 128 0 DirectionIndicator.UP
       (TargetValue.buf (Buffer.ofBytesLeft 0x20010db8000a000000000000000000 120))
       MatchingOperator.MSB CompressionDecompressionAction.LSB,
     RuleFieldDescriptor.mk IPv6Fields.DST_ADDRESS 128 0 DirectionIndicator.BIDIRECTIONAL
       (TargetValue.mapping
         [(Buffer.ofBytesLeft 0x20010db8000a00000000000000000020 128,
           Buffer.ofBytesLeft 0x00 2)])
       MatchingOperator.MATCH_MAPPING CompressionDecompressionAction.MAPPING_SENT,
     RuleFieldDescriptor.mk UDPFields.SOURCE_PORT 16 0 DirectionIndicator.UP
       (TargetValue.buf (Buffer.ofBytesLeft 0xd100 16))
       MatchingOperator.EQUAL CompressionDecompressionAction.NOT_SENT,
     RuleFieldDescriptor.mk UDPFields.DESTINATION_PORT 16 0 DirectionIndicator.UP
       (TargetValue.buf (Buffer.ofBytesLeft 0x1633 16))
       MatchingOperator.EQUAL CompressionDecompressionAction.NOT_SENT,
     RuleFieldDescriptor.mk UDPFields.LENGTH 16 0 DirectionIndicator.BIDIRECTIONAL
       (TargetValue.buf (Buffer.ofBytesLeft 0x00 0))
       MatchingOperator.IGNORE CompressionDecompressionAction.VALUE_SENT,
     RuleFieldDescriptor.mk UDPFields.CHECKSUM 16 0 DirectionIndicator.BIDIRECTIONAL
       (TargetValue.buf (Buffer.ofBytesLeft 0x00 0))
       MatchingOperator.IGNORE CompressionDecompressionAction.VALUE_SENT,
     RuleFieldDescriptor.mk CoAPFields.VERSION 2 0 DirectionIndicator.BIDIRECTIONAL
       (TargetValue.buf (Buffer.ofBytesLeft 0x01 2))
       MatchingOperator.EQUAL CompressionDecompressionAction.NOT_SENT,
     RuleFieldDescriptor.mk CoAPFields.TYPE 2 0 DirectionIndicator.BIDIRECTIONAL
       (TargetValue.buf (Buffer.ofBytesLeft 0x02 2))
       MatchingOperator.EQUAL CompressionDecompressionAction.NOT_SENT,
     RuleFieldDescriptor.mk CoAPFields.TOKEN_LENGTH 4 0 DirectionIndicator.BIDIRECTIONAL
       (TargetValue.buf (Buffer.ofBytesLeft 0x00 0))
       MatchingOperator.IGNORE CompressionDecompressionAction.VALUE_SENT,
     RuleFieldDescriptor.mk CoAPFields.CODE 8 0 DirectionIndicator.BIDIRECTIONAL
       (TargetValue.buf (Buffer.ofBytesLeft 0x00 0))
       MatchingOperator.IGNORE CompressionDecompressionAction.VALUE_SENT,
     RuleFieldDescriptor.mk CoAPFields.MESSAGE_ID 16 0 DirectionIndicator.BIDIRECTIONAL
       (TargetValue.buf (Buffer.ofBytesLeft 0x00 0))
       MatchingOperator.IGNORE CompressionDecompressionAction.VALUE_SENT,
     RuleFieldDescriptor.mk CoAPFields.TOKEN 0 0 DirectionIndicator.BIDIRECTIONAL
       (TargetValue.buf (Buffer.ofBytesLeft 0x00 0))
       MatchingOperator.IGNORE CompressionDecompressionAction.VALUE_SENT,
     RuleFieldDescriptor.mk CoAPFields.OPTION_DELTA 4 0 DirectionIndicator.UP
       (TargetValue.buf (Buffer.ofBytesLeft 0x0c 4))
       MatchingOperator.EQUAL CompressionDecompressionAction.NOT_SENT,
     RuleFieldDescriptor.mk CoAPFields.OPTION_LENGTH 4 0 DirectionIndicator.UP
       (TargetValue.buf (Buffer.ofBytesLeft 0x00 0))
       MatchingOperator.IGNORE CompressionDecompressionAction.VALUE_SENT,
     RuleFieldDescriptor.mk CoAPFields.OPTION_VALUE 0 0 DirectionIndicator.UP
       (TargetValue.buf (Buffer.ofBytesLeft 0x00 0))
       MatchingOperator.IGNORE CompressionDecompressionAction.VALUE_SENT,
     RuleFieldDescriptor.mk CoAPFields.PAYLOAD_MARKER 8 0 DirectionIndicator.UP
       (TargetValue.buf (Buffer.ofBytesLeft 0xff 8))
       MatchingOperator.EQUAL CompressionDecompressionAction.NOT_SENT]

/-- Claim-side accumulation step, written from the words of claim C2: add the
next 16-bit chunk and fold the end-around carry back into the low 16 bits. -/
def c2SumStep (acc chunk : Nat) : Nat :=
  (acc + chunk) % 65536 + (acc + chunk) / 65536

/-- Claim-side checksum procedure, written from the words of claim C2: sum
the 16-bit big-endian chunks of the pseudo-header, then the 16-bit chunks of
the zero-padded UDP header plus payload, fold the end-around carry after each
addition and again after combining the two partial sums, and take the
bitwise one's complement of the 16-bit result. -/
def c2OnesComplementChecksum (pseudo_header udp_header_and_payload : Buffer) : Nat :=
  let p := (pseudo_header.chunks16 false).foldl c2SumStep 0
  let u := (udp_header_and_payload.chunks16 true).foldl c2SumStep 0
  65535 - ((p + u) % 65536 + (p + u) / 65536)

/-- Claim-side IPv4 pseudo-header shape, written from the words of claim C3:
source (32) then destination (32) then a zero octet then protocol 17 (8)
then the UDP length (16). -/
def claimPseudoIPv4 (src dst : Buffer) (udp_length : Nat) : Buffer :=
  src ++ dst ++ Buffer.mk 0 8 ++ Buffer.mk 17 8 ++ Buffer.mk udp_length 16

/-- Claim-side IPv6 pseudo-header shape, written from the words of claim C3:
source (128) then destination (128) then the UDP length on 32 bits then 24
zero bits then next-header 17 (8). -/
def claimPseudoIPv6 (src dst : Buffer) (udp_length : Nat) : Buffer :=
  src ++ dst ++ Buffer.mk udp_length 32 ++ Buffer.mk 0 24 ++ Buffer.mk 17 8

/-- Amended IPv6 pseudo-header shape actually built by the code: source (128)
then destination (128) then a zero octet then next-header 17 (8) then the low
16 bits of the UDP length (16), 288 bits in total. -/
def claimPseudoIPv6LowBits (src dst : Buffer) (udp_length : Nat) : Buffer :=
  src ++ dst ++ Buffer.mk 0 8 ++ Buffer.mk 17 8 ++ Buffer.mk (udp_length % 65536) 16

/-- Claim-side selection, written from the words of claim C5: scan the
decompressed field ids backward from the checksum field's rule position and
select the last field belonging to the IPv4 or IPv6 namespace. -/
def claimBackwardScan (fields_ids : List String) (pos : Nat) : Option String :=
  (fields_ids.take pos).reverse.find?
    (fun fid => strContains fid IPv6_HEADER_ID || strContains fid IPV4_HEADER_ID)

/-- Concrete decompressed-fields context with an IPv6 layer whose last field
sits exactly four rule positions before the checksum field (rule position 7
for the checksum). -/
def fieldsIPv6Example : List (String × Buffer) :=
  [(IPv6Fields.VERSION, Buffer.mk 6 4),
   (IPv6Fields.SRC_ADDRESS, Buffer.mk 0xAA 128),
   (IPv6Fields.DST_ADDRESS, Buffer.mk 0xBB 128),
   (IPv6Fields.HOP_LIMIT, Buffer.mk 64 8),
   (UDPFields.SOURCE_PORT, Buffer.mk 1 16),
   (UDPFields.DESTINATION_PORT, Buffer.mk 2 16),
   (UDPFields.LENGTH, Buffer.mk 12 16)]

/-- Concrete decompressed-fields context whose last network-layer field is
the IPv6 destination address at index 1, while the field four rule positions
before the checksum (index 2) belongs to no network layer. -/
def fieldsScanExample : List (String × Buffer) :=
  [(IPv6Fields.SRC_ADDRESS, Buffer.mk 0xAA 128),
   (IPv6Fields.DST_ADDRESS, Buffer.mk 0xBB 128),
   ("X", Buffer.mk 0 8),
   (UDPFields.SOURCE_PORT, Buffer.mk 1 16),
   (UDPFields.DESTINATION_PORT, Buffer.mk 2 16),
   (UDPFields.LENGTH, Buffer.mk 12 16)]

/-- Concrete decompressed-fields context with an IPv4 layer, used to exercise
a successful `_compute_checksum` call. -/
def fieldsIPv4Example : List (String × Buffer) :=
  [("pad", Buffer.mk 0 8),
   (IPv4Fields.SRC_ADDRESS, Buffer.mk 0xC0A80001 32),
   ("IPv4:Destination Address", Buffer.mk 0xC0A80002 32),
   ("IPv4:Protocol", Buffer.mk 17 8),
   (UDPFields.SOURCE_PORT, Buffer.mk 0x1234 16),
   (UDPFields.DESTINATION_PORT, Buffer.mk 0x5678 16),
   (UDPFields.LENGTH, Buffer.mk 8 16)]

/-- Concrete decompressed-fields context whose field four positions before
the checksum carries neither the IPv4 nor the IPv6 namespace marker. -/
def fieldsNoMarkerExample : List (String × Buffer) :=
  [("A", Buffer.mk 0 8), ("B", Buffer.mk 0 8), ("C", Buffer.mk 0 8),
   ("D", Buffer.mk 0 8), ("E", Buffer.mk 0 8)]

/-- Unfolding equation of the buffer concatenation. -/
theorem Buffer.append_def (a b : Buffer) :
    a ++ b = Buffer.mk (a.val * 2 ^ b.length + b.val) (a.length + b.length) := rfl

/-- Componentwise equality of buffers. -/
theorem buffer_mk_eq (v1 l1 v2 l2 : Nat) (hv : v1 = v2) (hl : l1 = l2) :
    Buffer.mk v1 l1 = Buffer.mk v2 l2 := by rw [hv, hl]

/-- Appending a zero octet and then the octet 17 is appending the 16-bit
buffer `0x0011`. -/
theorem append_zero17 (y : Buffer) :
    y ++ Buffer.mk 0 8 ++ Buffer.mk 17 8 = y ++ Buffer.mk 17 16 := by
  simp only [Buffer.append_def]
  exact buffer_mk_eq _ _ _ _ (by ring) (by omega)

/-- Octet count of a buffer given explicitly by value and length. -/
theorem udpLengthOctets_mk (v n : Nat) :
    udpLengthOctets (Buffer.mk v n) = (n + 7) / 8 := by
  unfold udpLengthOctets
  show (if n % 8 = 0 then n / 8 else n / 8 + 1) = _
  split <;> omega

/-- Successful form of `UDPParser.parse` on buffers of at least 64 bits. -/
theorem parse_ok_eq (b : Buffer) (h : 64 ≤ b.length) :
    UDPParser.parse b = Except.ok (HeaderDescriptor.mk UDP_HEADER_ID 64
      [FieldDescriptor.mk UDPFields.SOURCE_PORT 0 (b.slice 0 16),
       FieldDescriptor.mk UDPFields.DESTINATION_PORT 0 (b.slice 16 32),
       FieldDescriptor.mk UDPFields.LENGTH 0 (b.slice 32 48),
       FieldDescriptor.mk UDPFields.CHECKSUM 0 (b.slice 48 64)]) := by
  unfold UDPParser.parse
  rw [if_neg (by omega)]

/-- Slicing inside an initial slice agrees with slicing the original buffer. -/
theorem slice_of_slice (b : Buffer) (m i j : Nat) (hm : m ≤ b.length) (hj : j ≤ m) :
    (b.slice 0 m).slice i j = b.slice i j := by
  unfold Buffer.slice
  congr 1
  simp only [Nat.sub_zero]
  rw [show (2 : Nat) ^ m = 2 ^ (m - j) * 2 ^ j by rw [← pow_add]; congr 1; omega]
  rw [Nat.mod_mul_right_div_self]
  rw [Nat.div_div_eq_div_mul, ← pow_add]
  rw [show b.length - m + (m - j) = b.length - j by omega]
  exact Nat.mod_mod_of_dvd _ (pow_dvd_pow 2 (by omega))

/-- C6: `UDPParser.parse` raises a `ParserError` if and only if the input
buffer's bit length is strictly less than 64, and in the error case no
`HeaderDescriptor`, partial or otherwise, is returned. -/
theorem C6_parse_error_iff (buffer : Buffer) :
    (∃ e, UDPParser.parse buffer = Except.error e) ↔ buffer.length < 64 := by
  constructor
  · rintro ⟨e, he⟩
    by_contra h
    unfold UDPParser.parse at he
    rw [if_neg h] at he
    exact Except.noConfusion he
  · intro h
    exact ⟨ParserError.mk buffer "length too short",
      by unfold UDPParser.parse; rw [if_pos h]⟩

/-- C7: on every buffer of at least 64 bits, `UDPParser.parse` returns the
`HeaderDescriptor` with id `UDP`, length 64, and exactly the four 16-bit
fields source port, destination port, length and checksum, in that order,
each at position 0, carrying bits [0,16), [16,32), [32,48) and [48,64) of
the buffer. -/
theorem C7_parse_fields (b : Buffer) (h : 64 ≤ b.length) :
    UDPParser.parse b = Except.ok (HeaderDescriptor.mk UDP_HEADER_ID 64
      [FieldDescriptor.mk UDPFields.SOURCE_PORT 0 (b.slice 0 16),
       FieldDescriptor.mk UDPFields.DESTINATION_PORT 0 (b.slice 16 32),
       FieldDescriptor.mk UDPFields.LENGTH 0 (b.slice 32 48),
       FieldDescriptor.mk UDPFields.CHECKSUM 0 (b.slice 48 64)]) :=
  parse_ok_eq b h

/-- Witness for C7 at a concrete 64-bit buffer. -/
theorem C7_parse_fields_witness :
    UDPParser.parse (Buffer.mk 0x0123456789ABCDEF 64) =
      Except.ok (HeaderDescriptor.mk UDP_HEADER_ID 64
        [FieldDescriptor.mk UDPFields.SOURCE_PORT 0
           ((Buffer.mk 0x0123456789ABCDEF 64).slice 0 16),
         FieldDescriptor.mk UDPFields.DESTINATION_PORT 0
           ((Buffer.mk 0x0123456789ABCDEF 64).slice 16 32),
         FieldDescriptor.mk UDPFields.LENGTH 0
           ((Buffer.mk 0x0123456789ABCDEF 64).slice 32 48),
         FieldDescriptor.mk UDPFields.CHECKSUM 0
           ((Buffer.mk 0x0123456789ABCDEF 64).slice 48 64)]) :=
  C7_parse_fields (Buffer.mk 0x0123456789ABCDEF 64) (by decide)

/-- C9: the parse result depends only on the first 64 bits of the input: two
buffers of at least 64 bits that agree on their first 64 bits parse to equal
`HeaderDescriptor`s, whatever their trailing datagram bits. -/
theorem C9_parse_first64 (b1 b2 : Buffer) (h1 : 64 ≤ b1.length)
    (h2 : 64 ≤ b2.length) (hs : b1.slice 0 64 = b2.slice 0 64) :
    UDPParser.parse b1 = UDPParser.parse b2 := by
  have e : ∀ i j, j ≤ 64 → b1.slice i j = b2.slice i j := by
    intro i j hj
    rw [← slice_of_slice b1 64 i j h1 hj, hs, slice_of_slice b2 64 i j h2 hj]
  rw [parse_ok_eq b1 h1, parse_ok_eq b2 h2,
    e 0 16 (by omega), e 16 32 (by omega), e 32 48 (by omega), e 48 64 (by omega)]

/-- Witness for C9: a 64-bit buffer and its 72-bit extension by one trailing
byte parse identically. -/
theorem C9_parse_first64_witness :
    UDPParser.parse (Buffer.mk 0x0123456789ABCDEF 64) =
      UDPParser.parse (Buffer.mk 0x0123456789ABCDEF55 72) :=
  C9_parse_first64 (Buffer.mk 0x0123456789ABCDEF 64)
    (Buffer.mk 0x0123456789ABCDEF55 72) (by decide) (by decide) (by decide)

/-- C10: whenever the field of `decompressed_fields` located four rule
positions before the checksum field (Python indexing) carries neither the
IPv6 nor the IPv4 namespace marker in its id, `_compute_checksum` fails (the
pseudo-header is never assigned, a `NameError` in the source) and returns no
checksum buffer. -/
theorem C10_dispatch_no_marker (packet : Buffer) (field_cursor : Nat)
    (fields : List (String × Buffer)) (pos : Nat) (f : String)
    (hf : pyGet (fields.map Prod.fst) ((pos : Int) - 4) = some f)
    (h6 : strContains f IPv6_HEADER_ID = false)
    (h4 : strContains f IPV4_HEADER_ID = false) :
    _compute_checksum packet field_cursor fields pos = none := by
  unfold _compute_checksum computePseudoHeader
  rw [hf]
  simp [h6, h4]

/-- Witness for C10 at a concrete context with no network-layer marker at
index `pos - 4`. -/
theorem C10_dispatch_no_marker_witness :
    _compute_checksum (Buffer.mk 0 64) 48 fieldsNoMarkerExample 4 = none :=
  C10_dispatch_no_marker (Buffer.mk 0 64) 48 fieldsNoMarkerExample 4 "A"
    (by decide) (by decide) (by decide)

/-- C8: every checksum buffer `_compute_checksum` returns is 16 bits and
never the all-zero value: after complementing, a result of `0x0000` is
replaced by `0xffff`, so the returned value is non-zero on every input on
which the function returns. -/
theorem C8_checksum_nonzero (packet : Buffer) (field_cursor : Nat)
    (fields : List (String × Buffer)) (pos : Nat) (b : Buffer)
    (h : _compute_checksum packet field_cursor fields pos = some b) :
    b.val ≠ 0 ∧ b.length = 16 := by
  unfold _compute_checksum at h
  split at h
  · exact Option.noConfusion h
  · rename_i ph hph
    injection h with h
    subst h
    refine ⟨?_, rfl⟩
    show rfc768Escape _ ≠ 0
    unfold rfc768Escape
    split
    · omega
    · assumption

/-- Witness for C8: a successful concrete IPv4 checksum computation returns
the non-zero 16-bit value `0x6e7e`. -/
theorem C8_checksum_nonzero_witness :
    (Buffer.mk 0x6e7e 16).val ≠ 0 ∧ (Buffer.mk 0x6e7e 16).length = 16 :=
  C8_checksum_nonzero (Buffer.mk 0x0102030405060708 64) 48 fieldsIPv4Example 7
    (Buffer.mk 0x6e7e 16) (by decide)

/-- Every chunk produced by the 16-bit chunker is below `2 ^ 16`. -/
theorem chunks16Aux_lt (fuel : Nat) :
    ∀ val len pad, ∀ c ∈ chunks16Aux fuel val len pad, c < 2 ^ 16 := by
  induction fuel with
  | zero =>
    intro val len pad c hc
    simp [chunks16Aux] at hc
  | succ n ih =>
    intro val len pad c hc
    unfold chunks16Aux at hc
    by_cases h16 : 16 ≤ len
    · rw [if_pos h16] at hc
      rcases List.mem_cons.mp hc with h | h
      · subst h
        exact Nat.mod_lt _ (by positivity)
      · exact ih _ _ _ _ h
    · rw [if_neg h16] at hc
      by_cases h0 : len = 0
      · simp [h0] at hc
      · rw [if_neg h0] at hc
        cases pad with
        | false => simp at hc
        | true =>
          simp at hc
          subst hc
          calc (val % 2 ^ len) * 2 ^ (16 - len)
              < 2 ^ len * 2 ^ (16 - len) :=
                Nat.mul_lt_mul_of_pos_right (Nat.mod_lt _ (by positivity)) (by positivity)
            _ = 2 ^ 16 := by rw [← pow_add]; congr 1; omega

/-- On lists of 16-bit chunks, the source's fold step (shift and mask) agrees
with the claim's fold step (low 16 bits plus end-around carry), and the
accumulator stays within 16 bits. -/
theorem foldl_eac_eq (l : List Nat) (hl : ∀ c ∈ l, c < 2 ^ 16) :
    ∀ acc, acc ≤ 65535 →
      l.foldl eacFoldStep acc = l.foldl c2SumStep acc ∧
        l.foldl eacFoldStep acc ≤ 65535 := by
  induction l with
  | nil =>
    intro acc hacc
    simpa using hacc
  | cons c t ih =>
    intro acc hacc
    have hc : c < 2 ^ 16 := hl c (List.mem_cons_self c t)
    have hstep : eacFoldStep acc c = c2SumStep acc c ∧ eacFoldStep acc c ≤ 65535 := by
      unfold eacFoldStep c2SumStep
      norm_num at hc
      constructor <;> omega
    have ht : ∀ x ∈ t, x < 2 ^ 16 := fun x hx => hl x (List.mem_cons_of_mem c hx)
    have h2 := ih ht (eacFoldStep acc c) hstep.2
    constructor
    · simp only [List.foldl]
      rw [h2.1, hstep.1]
    · simpa only [List.foldl] using h2.2

/-- The summation and complement of `_compute_checksum` computes exactly the
procedure described by claim C2. -/
theorem udpChecksumCore_eq_claim (ph uhp : Buffer) :
    udpChecksumCore ph uhp = c2OnesComplementChecksum ph uhp := by
  simp only [udpChecksumCore, c2OnesComplementChecksum]
  have hp := foldl_eac_eq (ph.chunks16 false)
    (fun c hc => chunks16Aux_lt _ _ _ _ c hc) 0 (by omega)
  have hu := foldl_eac_eq (uhp.chunks16 true)
    (fun c hc => chunks16Aux_lt _ _ _ _ c hc) 0 (by omega)
  rw [hp.1, hu.1]
  have hp2 := hp.1 ▸ hp.2
  have hu2 := hu.1 ▸ hu.2
  omega

/-- C2: in `_compute_checksum` the checksum is computed by summing the 16-bit
big-endian chunks of the pseudo-header, then the 16-bit chunks of the UDP
header plus payload zero-padded on the right, folding the end-around carry
back into the low 16 bits after each addition and again after combining the
two partial sums, and taking the bitwise one's complement of the 16-bit
result (to which the function then applies the RFC768 zero escape before
returning the 16-bit buffer). -/
theorem C2_checksum_algorithm (packet : Buffer) (field_cursor : Nat)
    (fields : List (String × Buffer)) (pos : Nat) :
    _compute_checksum packet field_cursor fields pos =
      Option.map
        (fun ph => Buffer.mk
          (rfc768Escape (c2OnesComplementChecksum ph (udpHeaderAndPayload packet field_cursor)))
          16)
        (computePseudoHeader fields pos
          (udpLengthOctets (udpHeaderAndPayload packet field_cursor))) := by
  unfold _compute_checksum
  cases h : computePseudoHeader fields pos
      (udpLengthOctets (udpHeaderAndPayload packet field_cursor)) with
  | none => rfl
  | some ph =>
    show some _ = _
    rw [udpChecksumCore_eq_claim]
    rfl

/-- C3 counterexample: on a concrete IPv6 context, `_compute_checksum`
builds a 288-bit pseudo-header, not the 320-bit
`source ∥ dest ∥ UDP-length(32) ∥ zero(24) ∥ next-header(8)` shape the claim
describes. -/
theorem C3_pseudo_header_counterexample :
    (computePseudoHeader fieldsIPv6Example 7 12).isSome = true ∧
      computePseudoHeader fieldsIPv6Example 7 12 ≠
        some (claimPseudoIPv6 (Buffer.mk 0xAA 128) (Buffer.mk 0xBB 128) 12) :=
  ⟨by decide, by decide⟩

/-- C3 (amended): every pseudo-header `_compute_checksum` builds is
determined by the dispatch branch and the selected address fields.  When the
field id four rule positions before the checksum carries the IPv6 marker, the
pseudo-header is the value of the `IPv6:Source Address` field found by the
backward search, then the value of the field immediately after it (the
destination address), then a zero octet, next-header 17 (8 bits) and the low
16 bits of the UDP length — the protocol octets before a 16-bit length, not
the claimed 320-bit `length(32) ∥ zero(24) ∥ next-header(8)` shape.  When
that id carries the IPv4 marker instead, the pseudo-header is the selected
`IPv4:Source Address` value, the following destination address value, a zero
octet, protocol 17 (8 bits) and the UDP length (16 bits), exactly as
claimed. -/
theorem C3_pseudo_header_shapes (fields : List (String × Buffer)) (pos len : Nat)
    (ph : Buffer) (h : computePseudoHeader fields pos len = some ph) :
    ∃ f src dst,
      pyGet (fields.map Prod.fst) ((pos : Int) - 4) = some f ∧
        ((strContains f IPv6_HEADER_ID = true ∧
            selectAddresses (fields.map Prod.fst) (fields.map Prod.snd)
              ((pos : Int) - 4) IPv6Fields.SRC_ADDRESS = some (src, dst) ∧
            ph = claimPseudoIPv6LowBits src dst len) ∨
          (strContains f IPv6_HEADER_ID = false ∧
            strContains f IPV4_HEADER_ID = true ∧
            selectAddresses (fields.map Prod.fst) (fields.map Prod.snd)
              ((pos : Int) - 4) IPv4Fields.SRC_ADDRESS = some (src, dst) ∧
            ph = claimPseudoIPv4 src dst len)) := by
  unfold computePseudoHeader at h
  split at h
  · exact Option.noConfusion h
  · rename_i x f hpy
    split at h
    · rename_i h6
      unfold ipv6PseudoHeader at h
      split at h
      · exact Option.noConfusion h
      · rename_i src_dst src dst heq
        split at h
        · injection h with h
          refine ⟨f, src, dst, hpy, Or.inl ⟨h6, heq, ?_⟩⟩
          rw [← h]
          unfold claimPseudoIPv6LowBits
          rw [append_zero17 (src ++ dst)]
        · exact Option.noConfusion h
    · rename_i h6
      split at h
      · rename_i h4
        unfold ipv4PseudoHeader at h
        split at h
        · exact Option.noConfusion h
        · rename_i src_dst src dst heq
          split at h
          · injection h with h
            refine ⟨f, src, dst, hpy,
              Or.inr ⟨Bool.eq_false_iff.mpr (fun hx => h6 hx), h4, heq, ?_⟩⟩
            rw [← h]
            unfold claimPseudoIPv4
            rw [append_zero17 (src ++ dst)]
          · exact Option.noConfusion h
      · exact Option.noConfusion h

/-- Witness for C3 at the concrete IPv6 context: the dispatch field is the
IPv6 hop limit, the selected addresses are the 128-bit source and destination
values of the context, and the built pseudo-header is the amended IPv6
shape. -/
theorem C3_pseudo_header_shapes_witness :
    ∃ f src dst,
      pyGet (fieldsIPv6Example.map Prod.fst) ((7 : Int) - 4) = some f ∧
        ((strContains f IPv6_HEADER_ID = true ∧
            selectAddresses (fieldsIPv6Example.map Prod.fst)
              (fieldsIPv6Example.map Prod.snd) ((7 : Int) - 4)
              IPv6Fields.SRC_ADDRESS = some (src, dst) ∧
            (Buffer.mk 0xAA 128 ++ Buffer.mk 0xBB 128 ++ Buffer.mk 17 16 ++ Buffer.mk 12 16) =
              claimPseudoIPv6LowBits src dst 12) ∨
          (strContains f IPv6_HEADER_ID = false ∧
            strContains f IPV4_HEADER_ID = true ∧
            selectAddresses (fieldsIPv6Example.map Prod.fst)
              (fieldsIPv6Example.map Prod.snd) ((7 : Int) - 4)
              IPv4Fields.SRC_ADDRESS = some (src, dst) ∧
            (Buffer.mk 0xAA 128 ++ Buffer.mk 0xBB 128 ++ Buffer.mk 17 16 ++ Buffer.mk 12 16) =
              claimPseudoIPv4 src dst 12)) :=
  C3_pseudo_header_shapes fieldsIPv6Example 7 12
    (Buffer.mk 0xAA 128 ++ Buffer.mk 0xBB 128 ++ Buffer.mk 17 16 ++ Buffer.mk 12 16)
    (by decide)

/-- C4 counterexample: on a 65536-octet packet the octet count does not fit
the 2-byte conversion (`OverflowError` in the source), and `_compute_length`
returns no buffer at all instead of one whose value is `ceil(n/8) = 65536`. -/
theorem C4_compute_length_counterexample :
    _compute_length (Buffer.mk 0 524288) 32 [] 0 = none ∧
      (524288 + 7) / 8 = 65536 :=
  ⟨by decide, by norm_num⟩

/-- C4 (amended): for every reconstructed packet and field cursor at least
32 bits into it, with `n` the number of bits from the start of the UDP
header (32 bits before the cursor) to the end of the packet, and provided
`ceil(n/8)` fits in 16 bits (otherwise the 2-byte conversion fails),
`_compute_length` returns the 16-bit big-endian buffer whose unsigned value
is `ceil(n/8)`, in the aligned and non-aligned cases alike. -/
theorem C4_compute_length (packet : Buffer) (field_cursor : Nat)
    (fields : List (String × Buffer)) (pos : Nat)
    (h32 : 32 ≤ field_cursor) (hin : field_cursor - 32 ≤ packet.length)
    (hfit : (packet.length - (field_cursor - 32) + 7) / 8 < 65536) :
    _compute_length packet field_cursor fields pos =
      some (Buffer.mk ((packet.length - (field_cursor - 32) + 7) / 8) 16) := by
  unfold _compute_length Buffer.pySliceFrom
  rw [if_pos (by omega : (0 : Int) ≤ (field_cursor : Int) - 32)]
  rw [show ((field_cursor : Int) - 32).toNat = field_cursor - 32 by omega]
  rw [Nat.min_eq_left hin]
  show (if udpLengthOctets _ < 65536 then _ else _) = _
  rw [udpLengthOctets_mk]
  rw [if_pos hfit]

/-- Witness for C4 at a concrete non-byte-aligned input: a 72-bit packet with
the length field's cursor at bit 37 yields `ceil(67/8) = 9` octets. -/
theorem C4_compute_length_witness :
    _compute_length (Buffer.mk 0xABCD 72) 37 [] 0 =
      some (Buffer.mk ((72 - (37 - 32) + 7) / 8) 16) :=
  C4_compute_length (Buffer.mk 0xABCD 72) 37 [] 0 (by decide) (by decide) (by decide)

/-- C5 counterexample: in a concrete context whose last network-layer field
(found by the claimed backward scan) is the IPv6 destination address but
whose field four rule positions before the checksum has no network marker,
the claim would select the IPv6 shape, yet `_compute_checksum`'s dispatch
defines no pseudo-header at all. -/
theorem C5_dispatch_counterexample :
    computePseudoHeader fieldsScanExample 6 12 = none ∧
      claimBackwardScan (fieldsScanExample.map Prod.fst) 6 =
        some IPv6Fields.DST_ADDRESS ∧
      strContains IPv6Fields.DST_ADDRESS IPv6_HEADER_ID = true := by
  refine ⟨?_, ?_, ?_⟩ <;> decide

/-- C5 (amended): `_compute_checksum` identifies the pseudo-header shape by
examining only the single field id at Python index `rule_field_position - 4`
of `decompressed_fields` — no backward scan takes place: the IPv6 shape is
chosen exactly when that id contains the `IPv6` marker, otherwise the IPv4
shape exactly when it contains the `IPv4` marker, and otherwise no
pseudo-header is defined. -/
theorem C5_dispatch_fixed_offset (fields : List (String × Buffer)) (pos len : Nat)
    (f : String)
    (hf : pyGet (fields.map Prod.fst) ((pos : Int) - 4) = some f) :
    computePseudoHeader fields pos len =
      (if strContains f IPv6_HEADER_ID then
        ipv6PseudoHeader (fields.map Prod.fst) (fields.map Prod.snd)
          ((pos : Int) - 4) len
      else if strContains f IPV4_HEADER_ID then
        ipv4PseudoHeader (fields.map Prod.fst) (fields.map Prod.snd)
          ((pos : Int) - 4) len
      else none) := by
  unfold computePseudoHeader
  rw [hf]

/-- Witness for C5 at the concrete IPv4 context. -/
theorem C5_dispatch_fixed_offset_witness :
    computePseudoHeader fieldsIPv4Example 7 12 =
      (if strContains "IPv4:Protocol" IPv6_HEADER_ID then
        ipv6PseudoHeader (fieldsIPv4Example.map Prod.fst)
          (fieldsIPv4Example.map Prod.snd) ((7 : Int) - 4) 12
      else if strContains "IPv4:Protocol" IPV4_HEADER_ID then
        ipv4PseudoHeader (fieldsIPv4Example.map Prod.fst)
          (fieldsIPv4Example.map Prod.snd) ((7 : Int) - 4) 12
      else none) :=
  C5_dispatch_fixed_offset fieldsIPv4Example 7 12 "IPv4:Protocol" (by decide)

set_option maxRecDepth 100000 in
/-- C1 counterexample: the fixture decompression yields a 1152-bit (144-byte)
packet, not a `152`-byte one, and the fixture rule contains no `COMPUTE`
action: the claim's byte count (and its action list) do not match the
fixture. -/
theorem C1_fixture_counterexample :
    (decompress fixtureSchcPacket DirectionIndicator.UP fixtureRule).map Buffer.length =
        some 1152 ∧
      (1152 : Nat) ≠ 8 * 152 ∧
      (fixtureRule.field_descriptors.all fun f =>
        f.compression_decompression_action != CompressionDecompressionAction.COMPUTE) = true := by
  refine ⟨?_, by norm_num, by decide⟩
  decide

set_option maxRecDepth 100000 in
/-- C1 (amended): decompressing the literal 828-bit SCHC packet of the
reference fixture with its rule (IPv6 + UDP + CoAP fields, rule id 2 bits,
mixed NOT_SENT/VALUE_SENT/LSB/MAPPING_SENT actions, direction UP) yields a
packet whose content is byte-for-byte the exact 144-byte IPv6/UDP/CoAP
packet of the fixture. -/
theorem C1_fixture_decompress :
    decompress fixtureSchcPacket DirectionIndicator.UP fixtureRule =
      some fixtureStackPacket := by
  decide
